import Mathlib

/-!
Verification of the résumé/job matching engine of `ats-resume-creator`
(`backend/app/services/advanced_matching.py`, `job_analysis.py`,
`enhanced_nlp.py`, `analysis.py`, `models/analysis.py`).

The Python code is shallowly embedded: each scoring routine becomes an
executable Lean function over `ℚ` (Python floats are modelled as exact
rationals), `Option` models Python `None`, and `Except String` models the
possibility of a raised exception.  The regular-expression layer of the
extractors is abstracted: a function that in Python calls `re.findall`
receives here the list of numeric captures that call returns (one list per
pattern, in the source's pattern order), and word-boundary matching is
modelled on texts given as lists of lower-case words.
-/

namespace ATSMatch

/-! ## Experience scoring
Embeds `AdvancedMatchingService._experience_matching_analysis`
(`advanced_matching.py`, lines 276-350).  The extraction sub-calls
(`enhanced_extract_experience`, job-side `_extract_experience_requirements`)
supply `resume_years`, `required_years` (`None` when no years pattern
matched) and the two seniority-level strings; the scoring logic itself is
translated below. -/

/-- `experience_decay_factor = 0.1` (`advanced_matching.py` line 27). -/
def experience_decay_factor : ℚ := 1 / 10

/-- The seniority hierarchy `{"entry": 1, "mid": 2, "senior": 3,
"executive": 4}` with Python's `.get(level, 2)` default
(`advanced_matching.py` lines 329-331). -/
def seniority_hierarchy (level : String) : Int :=
  if level = "entry" then 1
  else if level = "mid" then 2
  else if level = "senior" then 3
  else if level = "executive" then 4
  else 2

/-- Base experience score (`advanced_matching.py` lines 296-322).
`required_years` is `none` exactly when the job analyzer found no numeric
years pattern (its `years_required` field stays Python `None`).  In that
case `required_years == 0` evaluates to `False` in Python (`None == 0`),
and the subsequent comparison `resume_years >= required_years` raises a
`TypeError`, which we model as `Except.error`. -/
def experience_base_score (resume_years : ℕ) (required_years : Option ℕ) :
    Except String ℚ :=
  match required_years with
  | none =>
      Except.error
        "TypeError: not supported between instances of int and NoneType"
  | some r =>
      if r = 0 then Except.ok 80
      else if resume_years ≥ r then
        let excess : ℚ := (resume_years : ℚ) - (r : ℚ)
        if excess ≤ 2 then Except.ok (90 + min (excess * 5) 10)
        else Except.ok (90 - min (excess * experience_decay_factor) 20)
      else
        let gap : ℚ := (r : ℚ) - (resume_years : ℚ)
        if gap ≤ 1 then Except.ok 70
        else if gap ≤ 2 then Except.ok 50
        else Except.ok (max 20 (50 - gap * 10))

/-- Seniority-level adjustment applied after the base score
(`advanced_matching.py` lines 324-339): +5 for an exact level match,
+2 for adjacent levels, −10 when the résumé is more than one level below. -/
def experience_level_adjust (base : ℚ) (resume_level job_level : String) : ℚ :=
  if resume_level ≠ "unknown" ∧ job_level ≠ "unknown" then
    let rs := seniority_hierarchy resume_level
    let js := seniority_hierarchy job_level
    if rs = js then base + 5
    else if (rs - js).natAbs = 1 then base + 2
    else if rs < js - 1 then base - 10
    else base
  else base

/-- The experience component score: base score then level adjustment, as in
`_experience_matching_analysis`. -/
def experience_score (resume_years : ℕ) (required_years : Option ℕ)
    (resume_level job_level : String) : Except String ℚ :=
  (experience_base_score resume_years required_years).map
    (fun b => experience_level_adjust b resume_level job_level)

/-! ## Years-of-experience extraction
Embeds `JobAnalysisService._extract_experience_requirements`
(`job_analysis.py`, lines 234-258).  The four `re.findall` calls (patterns
`N+ years ... experience`, `minimum N years`, `at least N years`,
`N to M years`) are abstracted: `m1`, `m2`, `m3` are the integer captures
of the three single-number patterns and `m4` the capture pairs of the
range pattern, in the source's pattern order.  The Python loop overwrites
`years_required` for every pattern that has at least one match: the
single-number patterns store the maximum of their own matches, the range
pattern stores the upper bound of its first match. -/

/-- One loop iteration for a single-number pattern: `max(years)` of its
matches when non-empty, otherwise keep the current value. -/
def years_step (cur : Option ℕ) (found : List ℕ) : Option ℕ :=
  match found with
  | [] => cur
  | m :: ms => some (ms.foldl Nat.max m)

/-- The loop iteration for the range pattern `N to M years`: Python takes
`int(matches[0][1])`, the upper bound of the first match. -/
def years_step_range (cur : Option ℕ) (found : List (ℕ × ℕ)) : Option ℕ :=
  match found with
  | [] => cur
  | m :: _ => some m.2

/-- `years_required` after the whole pattern loop of
`_extract_experience_requirements`; `none` models Python `None` (no
pattern matched). -/
def extract_years_required (m1 m2 m3 : List ℕ) (m4 : List (ℕ × ℕ)) :
    Option ℕ :=
  years_step_range (years_step (years_step (years_step none m1) m2) m3) m4

/-! ## String containment (Python `in` on strings)
Executable substring test used by the education matcher and the skill
tagger. -/

/-- `charsStartWith needle hay` : `needle` is an initial segment of `hay`. -/
def charsStartWith : List Char → List Char → Bool
  | [], _ => true
  | _ :: _, [] => false
  | a :: as, b :: bs => a == b && charsStartWith as bs

/-- `charsContain needle hay` : `needle` occurs contiguously in `hay`. -/
def charsContain (needle : List Char) : List Char → Bool
  | [] => needle.isEmpty
  | c :: hs => charsStartWith needle (c :: hs) || charsContain needle hs

/-- Python `needle in hay` for strings. -/
def pyIn (needle hay : String) : Bool :=
  charsContain needle.toList hay.toList

/-- ASCII lower-casing of one character (Python `str.lower()` restricted
to ASCII text, which covers every string the services compare). -/
def charLower (c : Char) : Char :=
  if 'A' ≤ c ∧ c ≤ 'Z' then Char.ofNat (c.toNat + 32) else c

/-- Python `s.lower()` (ASCII). -/
def strLower (s : String) : String :=
  String.mk (s.toList.map charLower)

/-! ## Education scoring
Embeds `AdvancedMatchingService._education_matching_analysis`
(`advanced_matching.py`, lines 352-427) together with the data it reads:
the `education_levels` keyword table of `enhanced_nlp.py` (lines 39-46)
and the `education_hierarchy` of `advanced_matching.py` (lines 31-38).
Education entries are the structured dicts of `resume_data["education"]`
(entries that are not dicts are skipped by the code and are not
modelled). -/

/-- One structured résumé education entry (`edu.get("degree", "")`,
`edu.get("field", "")`). -/
structure EducationEntry where
  degree : String
  field : String
deriving DecidableEq

/-- The job-side education facet (`job_education` dict: `level`,
`degree_required`, `fields`). -/
structure JobEducation where
  level : String
  degree_required : Bool
  fields : List String
deriving DecidableEq

/-- `EnhancedNLPService.education_levels` (`enhanced_nlp.py` lines 39-46),
in Python dict insertion order. -/
def education_levels : List (String × List String) :=
  [("phd", ["phd", "ph.d", "doctorate", "doctoral", "doctor of philosophy"]),
   ("masters", ["masters", "master", "ms", "m.s", "mba", "m.b.a", "ma", "m.a"]),
   ("bachelors", ["bachelors", "bachelor", "bs", "b.s", "ba", "b.a", "btech", "b.tech"]),
   ("associates", ["associates", "associate", "as", "a.s", "aa", "a.a"]),
   ("certificate", ["certificate", "certification", "diploma", "bootcamp"]),
   ("high_school", ["high school", "secondary", "diploma", "ged"])]

/-- `AdvancedMatchingService.education_hierarchy` with Python
`.get(level, 0)` default (`advanced_matching.py` lines 31-38). -/
def education_hierarchy (level : String) : ℕ :=
  if level = "high_school" then 1
  else if level = "certificate" then 2
  else if level = "associates" then 3
  else if level = "bachelors" then 4
  else if level = "masters" then 5
  else if level = "phd" then 6
  else 0

/-- Inner loop of the highest-level scan (`advanced_matching.py` lines
373-381): for each `(level, keywords)` of `education_levels`, if any
keyword occurs in the lower-cased degree string and the level is strictly
higher than the current best, take it. -/
def update_highest_for_degree (cur : String) (degree : String) : String :=
  education_levels.foldl
    (fun acc p =>
      if p.2.any (fun kw => pyIn kw (strLower degree)) then
        if acc = "unknown" ∨ education_hierarchy p.1 > education_hierarchy acc
        then p.1 else acc
      else acc)
    cur

/-- `resume_highest` after scanning all structured education entries. -/
def resume_highest_level (resume_education : List EducationEntry) : String :=
  resume_education.foldl (fun acc e => update_highest_for_degree acc e.degree)
    "unknown"

/-- Field-of-study test for one entry (`advanced_matching.py` lines
417-425): Python
`resume_field and job_field.lower() in resume_field or resume_field in job_field.lower()`
(note that an empty `resume_field` satisfies the second disjunct for any
job field); the inner `break` grants at most one hit per entry. -/
def entry_field_match (job_fields : List String) (e : EducationEntry) : Bool :=
  job_fields.any (fun jf =>
    (!(strLower e.field == "") && pyIn (strLower jf) (strLower e.field))
    || pyIn (strLower e.field) (strLower jf))

/-- The education component: returns `(score, degree_requirement_met)` as
computed by `_education_matching_analysis`.  An empty structured education
list returns the defaults `(50, false)` before any other check. -/
def education_score_core (resume_education : List EducationEntry)
    (job : JobEducation) : ℚ × Bool :=
  if resume_education = [] then (50, false)
  else
    let highest := resume_highest_level resume_education
    let base : ℚ × Bool :=
      if job.degree_required ∧ highest ≠ "unknown" then
        let rh := education_hierarchy highest
        let jh := education_hierarchy job.level
        if jh > 0 then
          if rh ≥ jh then (85 + min (((rh : ℚ) - (jh : ℚ)) * 5) 15, true)
          else (max 40 (70 - ((jh : ℚ) - (rh : ℚ)) * 15), true)
        else (70, true)
      else if ¬job.degree_required then (80, true)
      else (50, false)
    let bonus : ℚ :=
      if job.fields ≠ [] ∧ resume_education ≠ [] then
        10 * ((resume_education.filter (entry_field_match job.fields)).length : ℚ)
      else 0
    (base.1 + bonus, base.2)

/-! ## Skill-tagger confidence
Embeds `EnhancedNLPService._calculate_skill_confidence`
(`enhanced_nlp.py`, lines 348-362) and the per-category part of
`enhanced_extract_skills` (lines 309-346).  The text is modelled as its
list of lower-case words, so the word-boundary regex count
`re.findall(rf"\b{skill}\b", text)` for a single-word skill is the number
of words equal to the skill, and Python `skill in text` is a substring
test on the space-joined text. -/

/-- Number of word-boundary exact mentions of a single-word skill. -/
def count_exact_mentions (tokens : List String) (skill : String) : ℕ :=
  (tokens.filter (fun t => t == skill)).length

/-- The space-joined text the word list stands for. -/
def join_tokens (tokens : List String) : String :=
  String.intercalate " " tokens

/-- `_calculate_skill_confidence`: `min(0.5 + exact_matches * 0.2, 1.0)`
when there is at least one exact mention, `0.3` for a substring-only
occurrence, `0.0` otherwise. -/
def calculate_skill_confidence (tokens : List String) (skill : String) : ℚ :=
  let exact := count_exact_mentions tokens skill
  if exact > 0 then min ((1 : ℚ)/2 + (exact : ℚ) * (1/5)) 1
  else if pyIn skill (join_tokens tokens) then 3/10
  else 0

/-- The `skills_found` dict for one category after the primary-skill loop
of `enhanced_extract_skills` (lines 318-322): each primary skill with
positive confidence, in taxonomy order. -/
def skills_found_primary (tokens : List String) (primary : List String) :
    List (String × ℚ) :=
  primary.foldl
    (fun acc s =>
      let c := calculate_skill_confidence tokens s
      if c > 0 then acc ++ [(s, c)] else acc)
    []

/-- Membership test used for Python `primary_skill not in skills_found`. -/
def found_has (l : List (String × ℚ)) (s : String) : Bool :=
  l.any (fun p => p.1 == s)

/-- `skills_found` after the synonym loop (lines 324-333): a primary skill
not yet found gets the maximum confidence over its synonyms when that
maximum is positive. -/
def skills_found (tokens : List String) (primary : List String)
    (synonyms : List (String × List String)) : List (String × ℚ) :=
  synonyms.foldl
    (fun acc p =>
      if !found_has acc p.1 then
        let mc := p.2.foldl
          (fun m syn => max m (calculate_skill_confidence tokens syn)) 0
        if mc > 0 then acc ++ [(p.1, mc)] else acc
      else acc)
    (skills_found_primary tokens primary)

/-- The category output after the confidence threshold (line 336):
`{skill: conf for ... if conf >= 0.3}`, keys only. -/
def extracted_category_skills (tokens : List String) (primary : List String)
    (synonyms : List (String × List String)) : List String :=
  ((skills_found tokens primary synonyms).filter
    (fun p => p.2 ≥ 3/10)).map (fun p => p.1)

/-! ## Skill matching (exact / fuzzy / missing)
Embeds `AdvancedMatchingService._find_skill_matches_with_synonyms`
(`advanced_matching.py`, lines 183-236) and the `missing` list of
`_advanced_skills_matching` (line 158).  `sim` abstracts
`difflib.SequenceMatcher(None, a, b).ratio()`; it only influences fuzzy
matches.  Python set results are modelled as filtered lists, so set
membership coincides with list membership. -/

/-- The exact-match test for one job skill: direct lower-cased membership,
a synonym of the job skill on the résumé, or the résumé holding the main
skill while the job names one of its synonyms. -/
def is_exact_skill_match (synonyms : List (String × List String))
    (resume_skills : List String) (job_skill : String) : Bool :=
  let jl := strLower job_skill
  let resume_lower := resume_skills.map strLower
  if resume_lower.contains jl then true
  else
    let by_syn :=
      match (synonyms.find? (fun p => p.1 == jl)).map (fun p => p.2) with
      | some ss => ss.any (fun s => resume_lower.contains (strLower s))
      | none => false
    if by_syn then true
    else synonyms.any (fun p =>
      resume_lower.contains (strLower p.1)
      && (p.2.map strLower).contains jl)

/-- The fuzzy test (lines 229-234): some résumé skill is at least 80%
similar to the job skill. -/
def is_fuzzy_skill_match (sim : String → String → ℚ)
    (resume_skills : List String) (job_skill : String) : Bool :=
  resume_skills.any (fun r => sim (strLower job_skill) (strLower r) ≥ 4/5)

/-- `exact_matches` of `_find_skill_matches_with_synonyms`. -/
def exact_matches (synonyms : List (String × List String))
    (resume_skills job_skills : List String) : List String :=
  job_skills.filter (is_exact_skill_match synonyms resume_skills)

/-- The fuzzy matches (Python `partial_matches`): job skills that are not
exact matches but pass the similarity threshold. -/
def fuzzy_matches (sim : String → String → ℚ)
    (synonyms : List (String × List String))
    (resume_skills job_skills : List String) : List String :=
  job_skills.filter (fun j =>
    !is_exact_skill_match synonyms resume_skills j
    && is_fuzzy_skill_match sim resume_skills j)

/-- `missing = job_category_skills - matches` (`advanced_matching.py`
line 158): the job skills that are not exact matches. -/
def missing_skills (synonyms : List (String × List String))
    (resume_skills job_skills : List String) : List String :=
  job_skills.filter (fun j => !is_exact_skill_match synonyms resume_skills j)

/-! ## Keyword scoring
Embeds `AdvancedMatchingService._advanced_keyword_matching`
(`advanced_matching.py`, lines 429-499).  `dens` abstracts the
`keyword_analysis["densities"]` lookup: for each keyword the pair
`(count, density_percentage)` computed by
`calculate_advanced_keyword_density` (missing keywords read `(0, 0)` via
`.get`). -/

/-- Per-keyword density score (lines 466-471): optimal band
`0.5 ≤ d ≤ 3` scores 100, low densities scale up by 200, high densities
are penalized but floored at 50. -/
def keyword_density_score (d : ℚ) : ℚ :=
  if 1/2 ≤ d ∧ d ≤ 3 then 100
  else if d < 1/2 then d * 200
  else max 50 (100 - (d - 3) * 10)

/-- The overall keyword score: 50 when there are no job keywords,
otherwise `0.7 * coverage + 0.3 * average density score of covered
keywords`. -/
def advanced_keyword_overall (dens : String → ℕ × ℚ)
    (job_keywords : List String) : ℚ :=
  if job_keywords = [] then 50
  else
    let covered := job_keywords.filter (fun k => (dens k).1 > 0)
    let total := (covered.map (fun k => keyword_density_score (dens k).2)).sum
    let coverage := ((covered.length : ℚ) / (job_keywords.length : ℚ)) * 100
    let avg := if covered.length > 0 then total / (covered.length : ℚ) else 0
    coverage * (7/10) + avg * (3/10)

/-! ## Overall weighted score
Embeds `AdvancedMatchingService._calculate_weighted_scores`
(`advanced_matching.py`, lines 501-528).  The component map is the dict
built in `comprehensive_match_analysis` (lines 74-80), modelled as an
association list in Python insertion order. -/

/-- The fixed component weights with `.get(component, 0)` default. -/
def scoring_weights (component : String) : ℚ :=
  if component = "skills" then 35/100
  else if component = "experience" then 25/100
  else if component = "keywords" then 20/100
  else if component = "education" then 15/100
  else if component = "ats" then 5/100
  else 0

/-- `weighted_scores["total"]`: accumulated weighted sum divided by the
accumulated weight, 0 when the accumulated weight is not positive. -/
def calculate_weighted_scores (components : List (String × ℚ)) : ℚ :=
  let weighted_total := (components.map (fun p => p.2 * scoring_weights p.1)).sum
  let total_weight := (components.map (fun p => scoring_weights p.1)).sum
  if total_weight > 0 then weighted_total / total_weight else 0

/-! ## Analysis lifecycle
Embeds the `AnalysisStatus` enum (`models/analysis.py`, lines 6-10, with
the model default `status = PENDING`, line 21) and
`AnalysisService.analyze_resume_job_match` (`services/analysis.py`, lines
29-125).  The scoring pipeline call is abstracted as
`outcome : Except String ℚ` — `ok` carries the overall score of a
successful `comprehensive_match_analysis`, `error` the message of the
exception the `except` block catches; database commits are persistence
side effects outside the engine.  The function returns the successive
values of the mutated run record, one per committed transition. -/

inductive AnalysisStatus
  | pending
  | processing
  | completed
  | failed
deriving DecidableEq

/-- The run record: status, error message, and (as representative result
data) the overall score. -/
structure AnalysisState where
  status : AnalysisStatus
  error_message : Option String
  overall_score : Option ℚ
deriving DecidableEq

/-- A freshly created run (`status` column default
`AnalysisStatus.PENDING`, nullable error and scores). -/
def newAnalysis : AnalysisState :=
  { status := AnalysisStatus.pending, error_message := none,
    overall_score := none }

/-- One execution of the lifecycle controller: set `processing` (first
commit), then either complete with the results or, when the pipeline
raised, fail with the exception message (second commit). -/
def analyze_resume_job_match (a : AnalysisState)
    (outcome : Except String ℚ) : List AnalysisState :=
  let a1 := { a with status := AnalysisStatus.processing }
  match outcome with
  | Except.ok score =>
      [a1, { a1 with status := AnalysisStatus.completed,
                     overall_score := some score }]
  | Except.error e =>
      [a1, { a1 with status := AnalysisStatus.failed,
                     error_message := some e }]

/-! ## Skills overall score
Embeds the scoring loop of `AdvancedMatchingService._advanced_skills_matching`
(`advanced_matching.py`, lines 111-181): for every category named on either
side, the non-empty job-required categories contribute
`min(1, exact_ratio + 0.3 * fuzzy_ratio) * 100` weighted by the category
weight, and the overall skills score is the accumulated weighted sum over
the accumulated weight (0 when no category contributed).  Python's
`set(...)` of the two key lists is modelled by `List.dedup` of their
concatenation (the iteration order does not affect the sums), and the
per-category skill sets by `List.dedup` of the dict entries.  `syn_of`
supplies the taxonomy synonyms for a category
(`skill_taxonomy.get(category, {}).get("synonyms", {})`). -/

/-- `AdvancedMatchingService.category_weights` with the `.get(category, 0.7)`
default (`advanced_matching.py` lines 17-24, 150). -/
def category_weights (c : String) : ℚ :=
  if c = "programming_languages" then 1
  else if c = "web_frameworks" then 9/10
  else if c = "databases" then 8/10
  else if c = "cloud_platforms" then 8/10
  else if c = "tools_and_software" then 6/10
  else if c = "soft_skills" then 7/10
  else 7/10

/-- Python `skills_dict.get(category, [])`. -/
def skills_of (d : List (String × List String)) (c : String) : List String :=
  ((d.find? (fun p => p.1 == c)).map (fun p => p.2)).getD []

/-- The per-category score (`advanced_matching.py` lines 151-153):
`min(1.0, exact_match_score + partial_match_bonus) * 100` with
`exact_match_score = |matches| / |job_category_skills|` and
`partial_match_bonus = |partial_matches| * 0.3 / |job_category_skills|`. -/
def category_score (sim : String → String → ℚ)
    (synonyms : List (String × List String))
    (resume_c job_c : List String) : ℚ :=
  let exact_ratio : ℚ :=
    ((exact_matches synonyms resume_c job_c).length : ℚ) / (job_c.length : ℚ)
  let fuzzy_bonus : ℚ :=
    ((fuzzy_matches sim synonyms resume_c job_c).length : ℚ) * (3/10)
      / (job_c.length : ℚ)
  min 1 (exact_ratio + fuzzy_bonus) * 100

/-- One iteration of the category loop: accumulate
`(total_score, total_weight)`, skipping categories with no job-required
skills (`if not job_category_skills: continue`). -/
def skills_fold_step (sim : String → String → ℚ)
    (syn_of : String → List (String × List String))
    (resume_skills job_skills : List (String × List String))
    (acc : ℚ × ℚ) (c : String) : ℚ × ℚ :=
  let job_c := (skills_of job_skills c).dedup
  if job_c = [] then acc
  else
    let resume_c := (skills_of resume_skills c).dedup
    (acc.1 + category_score sim (syn_of c) resume_c job_c * category_weights c,
     acc.2 + category_weights c)

/-- `analysis["overall_score"]` of `_advanced_skills_matching`:
`total_score / total_weight if total_weight > 0 else 0`. -/
def skills_overall_score (sim : String → String → ℚ)
    (syn_of : String → List (String × List String))
    (resume_skills job_skills : List (String × List String)) : ℚ :=
  let categories :=
    (resume_skills.map Prod.fst ++ job_skills.map Prod.fst).dedup
  let acc := categories.foldl
    (skills_fold_step sim syn_of resume_skills job_skills) (0, 0)
  if acc.2 > 0 then acc.1 / acc.2 else 0

/-! ## ATS compatibility score
Embeds `EnhancedNLPService.assess_ats_compatibility`
(`enhanced_nlp.py`, lines 520-602).  The regex layer is abstracted: the
word count, the email/phone detection results and the list of detected
résumé sections are inputs.  The final `round(ats_score, 1)` display
rounding is omitted: it rounds to one decimal and maps `[0, 100]` into
itself (0 and 100 are fixed points of rounding to a tenth). -/

/-- The text-length factor (lines 527-545): 0.3 under 200 words, 0.7 over
1000 words, 1.0 otherwise. -/
def ats_length_factor (word_count : ℕ) : ℚ :=
  if word_count < 200 then 3/10
  else if word_count > 1000 then 7/10
  else 1

/-- The contact factor (lines 548-572): +0.5 for a detected email, +0.5
for a detected phone number. -/
def ats_contact_factor (has_email has_phone : Bool) : ℚ :=
  (if has_email then 1/2 else 0) + (if has_phone then 1/2 else 0)

/-- The section-structure factor (lines 575-578): the fraction of
{experience, education, skills} present among the detected sections. -/
def ats_structure_factor (sections_detected : List String) : ℚ :=
  ((["experience", "education", "skills"].filter
      (fun s => sections_detected.contains s)).length : ℚ) / 3

/-- `ats_score` (lines 590-593): the factor-weighted sum — length 0.2,
contact 0.3, structure 0.3, formatting 0.2 with the fixed default
formatting factor 0.8 — times 100. -/
def assess_ats_score (word_count : ℕ) (has_email has_phone : Bool)
    (sections_detected : List String) : ℚ :=
  (ats_length_factor word_count * (1/5)
    + ats_contact_factor has_email has_phone * (3/10)
    + ats_structure_factor sections_detected * (3/10)
    + (8/10) * (1/5)) * 100

end ATSMatch



namespace ATSMatch

/-! ## Helper lemmas -/

/-- Bounds for the base experience score when a requirement is present:
every branch yields a value in [20, 100]. -/
lemma experience_base_score_bounds (ry r : ℕ) (b : ℚ)
    (h : experience_base_score ry (some r) = Except.ok b) :
    20 ≤ b ∧ b ≤ 100 := by
  simp only [experience_base_score] at h
  split_ifs at h with h0 h1 h2 h3 h4 <;>
    simp only [Except.ok.injEq] at h <;> subst h
  · norm_num
  · have hge : (r : ℚ) ≤ (ry : ℚ) := by exact_mod_cast h1
    constructor
    · have : (0 : ℚ) ≤ min (((ry : ℚ) - (r : ℚ)) * 5) 10 :=
        le_min (by nlinarith) (by norm_num)
      linarith
    · have : min (((ry : ℚ) - (r : ℚ)) * 5) 10 ≤ 10 := min_le_right _ _
      linarith
  · have hge : (r : ℚ) ≤ (ry : ℚ) := by exact_mod_cast h1
    constructor
    · have : min (((ry : ℚ) - (r : ℚ)) * experience_decay_factor) 20 ≤ 20 :=
        min_le_right _ _
      linarith
    · have : (0 : ℚ) ≤ min (((ry : ℚ) - (r : ℚ)) * experience_decay_factor) 20 :=
        le_min (by unfold experience_decay_factor; nlinarith) (by norm_num)
      linarith
  · norm_num
  · norm_num
  · have hlt : (ry : ℚ) ≤ (r : ℚ) := by
      have := lt_of_not_ge h1
      exact_mod_cast this.le
    constructor
    · exact le_max_left _ _
    · have : (50 : ℚ) - ((r : ℚ) - (ry : ℚ)) * 10 ≤ 50 := by nlinarith
      have hm : max (20 : ℚ) ((50 : ℚ) - ((r : ℚ) - (ry : ℚ)) * 10) ≤ 50 :=
        max_le (by norm_num) this
      linarith

/-- The education score is bounded below by 40 in every branch, and the
field bonus only adds. -/
lemma education_score_core_lower (edu : List EducationEntry)
    (job : JobEducation) : 40 ≤ (education_score_core edu job).1 := by
  simp only [education_score_core]
  split_ifs with h0 h1 h2 h3 h4 h5 h6 h7 h8 <;> simp <;>
    try positivity
  all_goals
    first
    | positivity
    | (have hmax := le_max_left (40 : ℚ)
          ((70 : ℚ) - ((education_hierarchy job.level : ℚ)
            - (education_hierarchy (resume_highest_level edu) : ℚ)) * 15)
       have hb : (0 : ℚ)
          ≤ 10 * ((List.filter (entry_field_match job.fields) edu).length : ℚ) := by
         positivity
       linarith)
    | (have hc : ((education_hierarchy job.level : ℕ) : ℚ)
          ≤ ((education_hierarchy (resume_highest_level edu) : ℕ) : ℚ) := by
         exact_mod_cast h3
       have hmin : (0 : ℚ)
          ≤ min (((education_hierarchy (resume_highest_level edu) : ℚ)
              - (education_hierarchy job.level : ℚ)) * 5) 15 :=
         le_min (by nlinarith) (by norm_num)
       have hb : (0 : ℚ)
          ≤ 10 * ((List.filter (entry_field_match job.fields) edu).length : ℚ) := by
         positivity
       linarith)

/-- The seniority adjustment moves the base score by at most +5 upward and
at most −10 downward. -/
lemma experience_level_adjust_bounds (b : ℚ) (rl jl : String) :
    b - 10 ≤ experience_level_adjust b rl jl ∧
    experience_level_adjust b rl jl ≤ b + 5 := by
  simp only [experience_level_adjust]
  split_ifs <;> constructor <;> linarith

/-- A skill confidence is either exactly 0 or at least the 0.3 threshold:
one exact mention already scores 0.7 and a substring hit scores 0.3. -/
lemma calculate_skill_confidence_zero_or_ge (tokens : List String)
    (skill : String) :
    calculate_skill_confidence tokens skill = 0 ∨
    3/10 ≤ calculate_skill_confidence tokens skill := by
  simp only [calculate_skill_confidence]
  split_ifs with h1 h2
  · right
    have h1q : (1 : ℚ) ≤ (count_exact_mentions tokens skill : ℚ) := by
      exact_mod_cast Nat.one_le_iff_ne_zero.mpr (Nat.pos_iff_ne_zero.mp h1)
    exact le_min (by nlinarith) (by norm_num)
  · right; norm_num
  · left; rfl

/-- Every confidence the primary-skill loop stores is at least 0.3. -/
lemma skills_found_primary_conf (tokens primary : List String) :
    ∀ p ∈ skills_found_primary tokens primary, 3/10 ≤ p.2 := by
  suffices h : ∀ (acc : List (String × ℚ)), (∀ p ∈ acc, 3/10 ≤ p.2) →
      ∀ p ∈ primary.foldl
        (fun acc s =>
          let c := calculate_skill_confidence tokens s
          if c > 0 then acc ++ [(s, c)] else acc) acc, 3/10 ≤ p.2 by
    exact h [] (by simp)
  intro acc hacc
  induction primary generalizing acc with
  | nil => simpa using hacc
  | cons s rest ih =>
      intro p hp
      rw [List.foldl_cons] at hp
      refine ih _ ?_ p hp
      intro q hq
      by_cases hc : calculate_skill_confidence tokens s > 0
      · simp [hc] at hq
        rcases hq with hq | hq
        · exact hacc q hq
        · rcases calculate_skill_confidence_zero_or_ge tokens s with h0 | h3
          · rw [h0] at hc; exact absurd hc (by norm_num)
          · subst hq; exact h3
      · simp [hc] at hq
        exact hacc q hq

/-- A fold of `max` over confidences starting at 0 is 0 or at least 0.3. -/
lemma synonym_max_conf_zero_or_ge (tokens : List String)
    (syns : List String) :
    (syns.foldl (fun m syn => max m (calculate_skill_confidence tokens syn)) 0)
        = 0 ∨
    3/10 ≤ syns.foldl
        (fun m syn => max m (calculate_skill_confidence tokens syn)) 0 := by
  suffices h : ∀ (m : ℚ), m = 0 ∨ 3/10 ≤ m →
      (syns.foldl (fun m syn => max m (calculate_skill_confidence tokens syn)) m)
          = 0 ∨
      3/10 ≤ syns.foldl
          (fun m syn => max m (calculate_skill_confidence tokens syn)) m from
    h 0 (Or.inl rfl)
  induction syns with
  | nil => intro m hm; simpa using hm
  | cons s rest ih =>
      intro m hm
      refine ih (max m (calculate_skill_confidence tokens s)) ?_
      rcases hm with hm | hm
      · rcases calculate_skill_confidence_zero_or_ge tokens s with h0 | h3
        · left; rw [hm, h0]; simp
        · right; exact le_max_of_le_right h3
      · right; exact le_max_of_le_left hm

/-- Every confidence stored in `skills_found` is at least 0.3, so the 0.3
threshold filter removes nothing. -/
lemma skills_found_conf (tokens primary : List String)
    (synonyms : List (String × List String)) :
    ∀ p ∈ skills_found tokens primary synonyms, 3/10 ≤ p.2 := by
  simp only [skills_found]
  suffices h : ∀ (acc : List (String × ℚ)), (∀ p ∈ acc, 3/10 ≤ p.2) →
      ∀ p ∈ synonyms.foldl
        (fun acc p =>
          if !found_has acc p.1 then
            let mc := p.2.foldl
              (fun m syn => max m (calculate_skill_confidence tokens syn)) 0
            if mc > 0 then acc ++ [(p.1, mc)] else acc
          else acc) acc, 3/10 ≤ p.2 from
    h _ (skills_found_primary_conf tokens primary)
  intro acc hacc
  induction synonyms generalizing acc with
  | nil => simpa using hacc
  | cons sp rest ih =>
      intro p hp
      rw [List.foldl_cons] at hp
      refine ih _ ?_ p hp
      intro q hq
      by_cases hf : found_has acc sp.1
      · simp [hf] at hq
        exact hacc q hq
      · by_cases hm : sp.2.foldl
            (fun m syn => max m (calculate_skill_confidence tokens syn)) 0 > 0
        · simp [hf, hm] at hq
          rcases hq with hq | hq
          · exact hacc q hq
          · rcases synonym_max_conf_zero_or_ge tokens sp.2 with h0 | h3
            · rw [h0] at hm; exact absurd hm (by norm_num)
            · subst hq; exact h3
        · simp [hf, hm] at hq
          exact hacc q hq

/-- The category weights are nonnegative (every table entry and the 0.7
default). -/
lemma category_weights_nonneg (c : String) : 0 ≤ category_weights c := by
  simp only [category_weights]
  split_ifs <;> norm_num

/-- Every per-category score lies in [0, 100]: the capped ratio is in
[0, 1]. -/
lemma category_score_bounds (sim : String → String → ℚ)
    (synonyms : List (String × List String)) (resume_c job_c : List String) :
    0 ≤ category_score sim synonyms resume_c job_c ∧
    category_score sim synonyms resume_c job_c ≤ 100 := by
  simp only [category_score]
  have hx : (0 : ℚ) ≤
      ((exact_matches synonyms resume_c job_c).length : ℚ) / (job_c.length : ℚ)
      + ((fuzzy_matches sim synonyms resume_c job_c).length : ℚ) * (3/10)
        / (job_c.length : ℚ) := by positivity
  have h0 : (0 : ℚ) ≤ min 1
      (((exact_matches synonyms resume_c job_c).length : ℚ) / (job_c.length : ℚ)
        + ((fuzzy_matches sim synonyms resume_c job_c).length : ℚ) * (3/10)
          / (job_c.length : ℚ)) := le_min (by norm_num) hx
  have h1 : min 1
      (((exact_matches synonyms resume_c job_c).length : ℚ) / (job_c.length : ℚ)
        + ((fuzzy_matches sim synonyms resume_c job_c).length : ℚ) * (3/10)
          / (job_c.length : ℚ)) ≤ 1 := min_le_left _ _
  constructor <;> nlinarith

/-- The category loop keeps `0 ≤ total_weight`, `0 ≤ total_score` and
`total_score ≤ 100 * total_weight`. -/
lemma skills_fold_bounds (sim : String → String → ℚ)
    (syn_of : String → List (String × List String))
    (resume_skills job_skills : List (String × List String))
    (cs : List String) :
    ∀ t w : ℚ, 0 ≤ t → 0 ≤ w → t ≤ 100 * w →
      0 ≤ (cs.foldl (skills_fold_step sim syn_of resume_skills job_skills)
          (t, w)).1 ∧
      0 ≤ (cs.foldl (skills_fold_step sim syn_of resume_skills job_skills)
          (t, w)).2 ∧
      (cs.foldl (skills_fold_step sim syn_of resume_skills job_skills)
          (t, w)).1
        ≤ 100 * (cs.foldl (skills_fold_step sim syn_of resume_skills job_skills)
          (t, w)).2 := by
  induction cs with
  | nil => intro t w h1 h2 h3; simpa using ⟨h1, h2, h3⟩
  | cons c rest ih =>
      intro t w h1 h2 h3
      rw [List.foldl_cons]
      by_cases hj : (skills_of job_skills c).dedup = []
      · rw [show skills_fold_step sim syn_of resume_skills job_skills (t, w) c
            = (t, w) from by simp [skills_fold_step, hj]]
        exact ih t w h1 h2 h3
      · have hstep : skills_fold_step sim syn_of resume_skills job_skills (t, w) c
            = (t + category_score sim (syn_of c)
                  ((skills_of resume_skills c).dedup)
                  ((skills_of job_skills c).dedup) * category_weights c,
               w + category_weights c) := by
          simp [skills_fold_step, hj]
        rw [hstep]
        obtain ⟨hc0, hc1⟩ := category_score_bounds sim (syn_of c)
          ((skills_of resume_skills c).dedup) ((skills_of job_skills c).dedup)
        have hw := category_weights_nonneg c
        exact ih _ _ (by nlinarith) (by linarith) (by nlinarith)

/-- The overall skills score is a weighted average of category scores in
[0, 100] and therefore lies in [0, 100] itself. -/
lemma skills_overall_score_bounds (sim : String → String → ℚ)
    (syn_of : String → List (String × List String))
    (resume_skills job_skills : List (String × List String)) :
    0 ≤ skills_overall_score sim syn_of resume_skills job_skills ∧
    skills_overall_score sim syn_of resume_skills job_skills ≤ 100 := by
  simp only [skills_overall_score]
  obtain ⟨h1, h2, h3⟩ := skills_fold_bounds sim syn_of resume_skills job_skills
    ((resume_skills.map Prod.fst ++ job_skills.map Prod.fst).dedup)
    0 0 le_rfl le_rfl (by norm_num)
  split_ifs with hw
  · constructor
    · positivity
    · rw [div_le_iff hw]
      linarith
  · norm_num

/-- For a nonnegative density, the per-keyword density score lies in
[0, 100]. -/
lemma keyword_density_score_bounds (d : ℚ) (hd : 0 ≤ d) :
    0 ≤ keyword_density_score d ∧ keyword_density_score d ≤ 100 := by
  simp only [keyword_density_score]
  split_ifs with h1 h2
  · norm_num
  · constructor <;> nlinarith
  · push_neg at h1 h2
    have h3 : (3 : ℚ) < d := h1 h2
    constructor
    · have := le_max_left (50 : ℚ) (100 - (d - 3) * 10)
      linarith
    · exact max_le (by norm_num) (by nlinarith)

/-- For nonnegative densities the overall keyword score lies in [0, 100]:
both the coverage percentage and the average density score do. -/
lemma advanced_keyword_overall_bounds (dens : String → ℕ × ℚ)
    (job_keywords : List String) (hd : ∀ k, 0 ≤ (dens k).2) :
    0 ≤ advanced_keyword_overall dens job_keywords ∧
    advanced_keyword_overall dens job_keywords ≤ 100 := by
  simp only [advanced_keyword_overall, gt_iff_lt]
  split_ifs with he hc
  · norm_num
  all_goals
    have hlen : (0 : ℚ) < (job_keywords.length : ℚ) := by
      have h0 : job_keywords.length ≠ 0 := by
        simpa [List.length_eq_zero] using he
      exact_mod_cast Nat.pos_of_ne_zero h0
  all_goals
    have hcle : ((job_keywords.filter (fun k => decide (0 < (dens k).1))).length : ℚ)
        ≤ (job_keywords.length : ℚ) := by
      exact_mod_cast List.length_filter_le _ _
  all_goals
    have hcov0 : (0 : ℚ) ≤
        ((job_keywords.filter (fun k => decide (0 < (dens k).1))).length : ℚ)
          / (job_keywords.length : ℚ) * 100 := by positivity
  all_goals
    have hcov1 :
        ((job_keywords.filter (fun k => decide (0 < (dens k).1))).length : ℚ)
          / (job_keywords.length : ℚ) * 100 ≤ 100 := by
      have hr : ((job_keywords.filter (fun k => decide (0 < (dens k).1))).length : ℚ)
          / (job_keywords.length : ℚ) ≤ 1 := by
        rw [div_le_one hlen]; exact hcle
      nlinarith
  · -- some keyword is covered: bound the average density score
    have hcq : (0 : ℚ) <
        ((job_keywords.filter (fun k => decide (0 < (dens k).1))).length : ℚ) := by
      exact_mod_cast hc
    have hsum0 : (0 : ℚ) ≤ ((job_keywords.filter (fun k => decide (0 < (dens k).1))).map
        (fun k => keyword_density_score (dens k).2)).sum :=
      List.sum_nonneg (by
        intro x hx
        obtain ⟨k, _, hk⟩ := List.mem_map.mp hx
        rw [← hk]
        exact (keyword_density_score_bounds _ (hd k)).1)
    have hsum1 : ((job_keywords.filter (fun k => decide (0 < (dens k).1))).map
        (fun k => keyword_density_score (dens k).2)).sum
        ≤ ((job_keywords.filter (fun k => decide (0 < (dens k).1))).length : ℚ) * 100 := by
      have hs := List.sum_le_card_nsmul
        ((job_keywords.filter (fun k => decide (0 < (dens k).1))).map
          (fun k => keyword_density_score (dens k).2)) 100
        (by
          intro x hx
          obtain ⟨k, _, hk⟩ := List.mem_map.mp hx
          rw [← hk]
          exact (keyword_density_score_bounds _ (hd k)).2)
      simpa [List.length_map, nsmul_eq_mul, mul_comm] using hs
    have havg0 : (0 : ℚ) ≤ ((job_keywords.filter (fun k => decide (0 < (dens k).1))).map
        (fun k => keyword_density_score (dens k).2)).sum
          / ((job_keywords.filter (fun k => decide (0 < (dens k).1))).length : ℚ) := by
      positivity
    have havg1 : ((job_keywords.filter (fun k => decide (0 < (dens k).1))).map
        (fun k => keyword_density_score (dens k).2)).sum
          / ((job_keywords.filter (fun k => decide (0 < (dens k).1))).length : ℚ)
        ≤ 100 := by
      rw [div_le_iff hcq]; linarith
    constructor <;> nlinarith
  · -- no keyword covered: the average term is 0
    constructor <;> nlinarith

/-- The ATS score is a [0, 1]-factor combination scaled by 100 and lies in
[0, 100] (its maximum is 96). -/
lemma assess_ats_score_bounds (word_count : ℕ) (has_email has_phone : Bool)
    (sections_detected : List String) :
    0 ≤ assess_ats_score word_count has_email has_phone sections_detected ∧
    assess_ats_score word_count has_email has_phone sections_detected ≤ 100 := by
  have hl : 0 ≤ ats_length_factor word_count ∧
      ats_length_factor word_count ≤ 1 := by
    simp only [ats_length_factor]
    split_ifs <;> norm_num
  have hc : 0 ≤ ats_contact_factor has_email has_phone ∧
      ats_contact_factor has_email has_phone ≤ 1 := by
    simp only [ats_contact_factor]
    split_ifs <;> norm_num
  have hs : 0 ≤ ats_structure_factor sections_detected ∧
      ats_structure_factor sections_detected ≤ 1 := by
    simp only [ats_structure_factor]
    have hle : ((["experience", "education", "skills"].filter
        (fun s => sections_detected.contains s)).length : ℚ) ≤ 3 := by
      exact_mod_cast List.length_filter_le _ _
    constructor
    · positivity
    · rw [div_le_one (by norm_num : (0:ℚ) < 3)]; exact hle
  simp only [assess_ats_score]
  constructor <;> nlinarith [hl.1, hl.2, hc.1, hc.2, hs.1, hs.2]

/-! ## Claim theorems -/

/-- C1: On the five-component map built by `comprehensive_match_analysis`
(skills, experience, education, keywords, ats), the overall score computed
by `_calculate_weighted_scores` equals the fixed-weight combination with
weights 0.35, 0.25, 0.20, 0.15, 0.05 respectively, and those five weights
sum to exactly 1, so the division by the accumulated weight is a division
by 1. -/
theorem C1_overall_score_weighted_combination (s e ed k a : ℚ) :
    calculate_weighted_scores
        [("skills", s), ("experience", e), ("education", ed),
         ("keywords", k), ("ats", a)]
      = (35/100) * s + (25/100) * e + (20/100) * k + (15/100) * ed
          + (5/100) * a ∧
    scoring_weights "skills" + scoring_weights "experience"
      + scoring_weights "keywords" + scoring_weights "education"
      + scoring_weights "ats" = 1 := by
  constructor
  · simp +decide [calculate_weighted_scores, scoring_weights]
    norm_num
    ring
  · simp +decide [scoring_weights]
    norm_num

/-- C2 counterexample: component scores are not clamped to [0, 100].  A job
requiring 5 years against a résumé with 7 years and matching senior levels
yields experience score 105; a single PhD entry whose field matches a job
field hint, against a required high-school level, yields education score
110. -/
theorem C2_counterexample_scores_exceed_100 :
    experience_score 7 (some 5) "senior" "senior" = Except.ok 105 ∧
    (education_score_core [{ degree := "PhD in Physics", field := "physics" }]
        { level := "high_school", degree_required := true,
          fields := ["physics"] }).1 = 110 ∧
    ¬((105 : ℚ) ≤ 100 ∧ (110 : ℚ) ≤ 100) := by
  refine ⟨?_, ?_, by norm_num⟩
  · norm_num [experience_score, experience_base_score,
      experience_level_adjust, seniority_hierarchy, experience_decay_factor,
      Except.map]
    decide
  · have h1 : resume_highest_level
        [{ degree := "PhD in Physics", field := "physics" }] = "phd" := by
      decide
    have h2 : entry_field_match ["physics"]
        { degree := "PhD in Physics", field := "physics" } = true := by
      decide
    simp +decide [education_score_core, h1, h2, education_hierarchy,
      List.filter]
    norm_num [min_def]

/-- C2 amended: the skills, keywords and ATS component scores do stay in
[0, 100] (keywords under the nonnegative densities the density calculator
produces), but the experience and education scores are not clamped: the
experience score (when a years requirement is present) lies in [10, 105]
and can exceed 100, and the education score is only bounded below by 40 —
the field bonus adds 10 per matching entry on top of a base that can
already be 100. -/
theorem C2_amended_component_score_ranges :
    (∀ (sim : String → String → ℚ)
        (syn_of : String → List (String × List String))
        (resume_skills job_skills : List (String × List String)),
        0 ≤ skills_overall_score sim syn_of resume_skills job_skills ∧
        skills_overall_score sim syn_of resume_skills job_skills ≤ 100) ∧
    (∀ (dens : String → ℕ × ℚ) (job_keywords : List String),
        (∀ k, 0 ≤ (dens k).2) →
        0 ≤ advanced_keyword_overall dens job_keywords ∧
        advanced_keyword_overall dens job_keywords ≤ 100) ∧
    (∀ (word_count : ℕ) (has_email has_phone : Bool)
        (sections_detected : List String),
        0 ≤ assess_ats_score word_count has_email has_phone sections_detected ∧
        assess_ats_score word_count has_email has_phone sections_detected
          ≤ 100) ∧
    (∀ (ry r : ℕ) (rl jl : String) (q : ℚ),
        experience_score ry (some r) rl jl = Except.ok q →
        10 ≤ q ∧ q ≤ 105) ∧
    (∀ (edu : List EducationEntry) (job : JobEducation),
        40 ≤ (education_score_core edu job).1) := by
  refine ⟨skills_overall_score_bounds, advanced_keyword_overall_bounds,
    assess_ats_score_bounds, ?_, education_score_core_lower⟩
  intro ry r rl jl q hq
  simp only [experience_score] at hq
  cases hb : experience_base_score ry (some r) with
  | error e => rw [hb] at hq; simp [Except.map] at hq
  | ok b =>
      rw [hb] at hq
      simp only [Except.map, Except.ok.injEq] at hq
      subst hq
      obtain ⟨hb1, hb2⟩ := experience_base_score_bounds ry r b hb
      obtain ⟨ha1, ha2⟩ := experience_level_adjust_bounds b rl jl
      constructor <;> linarith

/-- C2 amended witness: the five range statements applied at concrete
inputs — one job-required category against an empty résumé skill set, a
single keyword with zero density, a 300-word résumé with full contact and
one detected section, the 5-vs-5-years experience run scoring 90, and the
empty-education default 50. -/
theorem C2_amended_component_score_ranges_witness :
    (0 ≤ skills_overall_score (fun _ _ => 0) (fun _ => []) []
        [("programming_languages", ["python"])] ∧
      skills_overall_score (fun _ _ => 0) (fun _ => []) []
        [("programming_languages", ["python"])] ≤ 100) ∧
    (0 ≤ advanced_keyword_overall (fun _ => (0, 0)) ["python"] ∧
      advanced_keyword_overall (fun _ => (0, 0)) ["python"] ≤ 100) ∧
    (0 ≤ assess_ats_score 300 true true ["experience"] ∧
      assess_ats_score 300 true true ["experience"] ≤ 100) ∧
    (10 ≤ (90 : ℚ) ∧ (90 : ℚ) ≤ 105) ∧
    40 ≤ (education_score_core []
        { level := "unknown", degree_required := false, fields := [] }).1 :=
  ⟨C2_amended_component_score_ranges.1 (fun _ _ => 0) (fun _ => []) []
      [("programming_languages", ["python"])],
   C2_amended_component_score_ranges.2.1 (fun _ => (0, 0)) ["python"]
      (fun _ => le_refl 0),
   C2_amended_component_score_ranges.2.2.1 300 true true ["experience"],
   C2_amended_component_score_ranges.2.2.2.1 5 5 "unknown" "unknown" 90
      (by norm_num [experience_score, experience_base_score,
        experience_level_adjust, seniority_hierarchy, Except.map]),
   C2_amended_component_score_ranges.2.2.2.2 []
      { level := "unknown", degree_required := false, fields := [] }⟩

/-- C3 (code bug): when the job text states no years requirement, the
extracted `years_required` stays `None`; the experience scorer then
evaluates `None == 0` to `False` (not taking the neutral-80 branch) and
crashes on `resume_years >= None` with a `TypeError` instead of returning
80. -/
theorem C3_no_years_requirement_raises_typeerror (ry : ℕ) (rl jl : String) :
    extract_years_required [] [] [] [] = none ∧
    experience_score ry none rl jl = Except.error
      "TypeError: not supported between instances of int and NoneType" :=
  ⟨rfl, rfl⟩

/-- C4 counterexample: for a job requiring 5 years and a résumé showing 8,
the experience sub-score is 89.7, not 70 — the code multiplies the excess
by the raw decay factor 0.1 without scaling it to points. -/
theorem C4_counterexample_scenario_b :
    experience_score 8 (some 5) "unknown" "unknown" = Except.ok (897/10) ∧
    (897/10 : ℚ) ≠ 70 := by
  constructor
  · norm_num [experience_score, experience_base_score,
      experience_level_adjust, seniority_hierarchy, experience_decay_factor,
      Except.map]
  · norm_num

/-- C4 amended: in the over-qualified branch (excess > 2 years, no level
adjustment applicable), the experience sub-score is
`90 - min(excess * 0.1, 20)`: the 0.1 decay factor is applied directly,
not scaled by 100, so for 8 years against 5 the score is 89.7. -/
theorem C4_amended_overqualification_decay (ry r : ℕ) (hr : r ≠ 0)
    (hge : r ≤ ry) (hex : 2 < (ry : ℚ) - (r : ℚ)) :
    experience_score ry (some r) "unknown" "unknown"
      = Except.ok
          (90 - min (((ry : ℚ) - (r : ℚ)) * experience_decay_factor) 20) := by
  simp only [experience_score, experience_base_score]
  rw [if_neg hr, if_pos hge, if_neg (by linarith : ¬((ry : ℚ) - (r : ℚ) ≤ 2))]
  simp [Except.map, experience_level_adjust]

/-- C4 amended witness: the decay rule evaluated at 8 years shown versus 5
required. -/
theorem C4_amended_overqualification_decay_witness :
    experience_score 8 (some 5) "unknown" "unknown"
      = Except.ok
          (90 - min ((((8:ℕ) : ℚ) - ((5:ℕ) : ℚ)) * experience_decay_factor) 20) :=
  C4_amended_overqualification_decay 8 5 (by norm_num) (by norm_num)
    (by norm_num)

/-- C5 counterexample: a text with exactly one word-boundary mention of
`python` gives that skill confidence 0.7, not the claimed base 0.5 — the
code computes `min(0.5 + n * 0.2, 1.0)` with `n` counting all mentions,
so the first mention already adds 0.2. -/
theorem C5_counterexample_single_mention :
    calculate_skill_confidence ["i", "use", "python", "daily"] "python"
      = 7/10 ∧ (7/10 : ℚ) ≠ 1/2 := by
  constructor
  · simp +decide [calculate_skill_confidence, count_exact_mentions,
      List.filter]
    norm_num [min_def]
  · norm_num

/-- C5 amended: with `n ≥ 1` word-boundary mentions the confidence is
`min(0.5 + n * 0.2, 1.0)` (0.7 for a single mention, +0.2 per further
mention, capped at 1.0), and a skill appears in the category output
exactly when the skill-collection loop stored it — the `conf ≥ 0.3`
threshold filter removes nothing because every stored confidence is at
least 0.3. -/
theorem C5_amended_confidence_policy :
    (∀ (tokens : List String) (skill : String),
        0 < count_exact_mentions tokens skill →
        calculate_skill_confidence tokens skill
          = min ((1:ℚ)/2 + (count_exact_mentions tokens skill : ℚ) * (1/5)) 1) ∧
    (∀ (tokens primary : List String)
        (synonyms : List (String × List String)) (s : String),
        s ∈ extracted_category_skills tokens primary synonyms ↔
          ∃ c, (s, c) ∈ skills_found tokens primary synonyms) := by
  constructor
  · intro tokens skill h
    simp only [calculate_skill_confidence]
    rw [if_pos h]
  · intro tokens primary synonyms s
    have hfil : (skills_found tokens primary synonyms).filter
        (fun p => p.2 ≥ 3/10) = skills_found tokens primary synonyms := by
      rw [List.filter_eq_self]
      intro p hp
      simpa using skills_found_conf tokens primary synonyms p hp
    simp only [extracted_category_skills, hfil, List.mem_map]
    constructor
    · rintro ⟨p, hp, hps⟩
      exact ⟨p.2, by rwa [show (s, p.2) = p from by rw [← hps]]⟩
    · rintro ⟨c, hc⟩
      exact ⟨(s, c), hc, rfl⟩

/-- C5 amended witness: the confidence formula applied to a text with two
mentions of `python`. -/
theorem C5_amended_confidence_policy_witness :
    calculate_skill_confidence ["python", "and", "python"] "python"
      = min ((1:ℚ)/2
          + (count_exact_mentions ["python", "and", "python"] "python" : ℚ)
            * (1/5)) 1 :=
  C5_amended_confidence_policy.1 ["python", "and", "python"] "python"
    (by decide)

/-- C6 counterexample: with the first pattern capturing 10 (for instance
from `10 years of experience`) and the range pattern capturing (2, 3)
(`2 to 3 years`), the extractor returns 3, not the maximum 10 found across
all patterns — each later pattern with a match overwrites the earlier
result. -/
theorem C6_counterexample_not_max_across_patterns :
    extract_years_required [10] [] [] [(2, 3)] = some 3 ∧ (3 : ℕ) ≠ 10 := by
  decide

/-- C6 amended: the patterns are tried in a fixed order and every pattern
with at least one match overwrites the result, so the last matching
pattern wins: the range pattern stores the upper bound of its first
match, each single-number pattern the maximum of its own matches, and the
result is null only when no pattern matched at all. -/
theorem C6_amended_last_pattern_wins (m1 m2 m3 : List ℕ)
    (m4 : List (ℕ × ℕ)) :
    (∀ p ps, m4 = p :: ps →
        extract_years_required m1 m2 m3 m4 = some p.2) ∧
    (m4 = [] → ∀ h t, m3 = h :: t →
        extract_years_required m1 m2 m3 m4 = some (t.foldl Nat.max h)) ∧
    (m4 = [] → m3 = [] → ∀ h t, m2 = h :: t →
        extract_years_required m1 m2 m3 m4 = some (t.foldl Nat.max h)) ∧
    (m4 = [] → m3 = [] → m2 = [] → ∀ h t, m1 = h :: t →
        extract_years_required m1 m2 m3 m4 = some (t.foldl Nat.max h)) ∧
    (m4 = [] → m3 = [] → m2 = [] → m1 = [] →
        extract_years_required m1 m2 m3 m4 = none) := by
  refine ⟨?_, ?_, ?_, ?_, ?_⟩ <;> intros <;> subst_vars <;>
    simp [extract_years_required, years_step, years_step_range]

/-- C6 amended witness: the range pattern, having a match, determines the
result regardless of the 7 captured by the first pattern. -/
theorem C6_amended_last_pattern_wins_witness :
    extract_years_required [7] [] [] [(1, 4)] = some (1, 4).2 :=
  (C6_amended_last_pattern_wins [7] [] [] [(1, 4)]).1 (1, 4) [] rfl

/-- C7 counterexample: with an empty structured education list and a job
that does not require a degree, `_education_matching_analysis` returns its
defaults — score 50 and requirement not met — because the empty list
triggers an early return before the no-degree-required branch. -/
theorem C7_counterexample_empty_education_list :
    education_score_core []
        { level := "unknown", degree_required := false, fields := [] }
      = (50, false) ∧
    ((50 : ℚ), false) ≠ ((80 : ℚ), true) := by
  constructor
  · norm_num [education_score_core]
  · simp

/-- C7 amended: only for a résumé with a non-empty structured education
list does a job without a degree requirement give the education score 80
(plus 10 per entry whose field matches a job field hint) with the
requirement reported met; an empty education list returns the default 50
with the requirement unmet. -/
theorem C7_amended_no_degree_required (edu : List EducationEntry)
    (job : JobEducation) (hne : edu ≠ [])
    (hreq : job.degree_required = false) :
    (education_score_core edu job).2 = true ∧
    (education_score_core edu job).1
      = 80 + 10 * ((edu.filter (entry_field_match job.fields)).length : ℚ) := by
  have hb : ¬(job.degree_required = true ∧ resume_highest_level edu ≠ "unknown") := by
    rw [hreq]; simp
  by_cases hf : job.fields = []
  · simp [education_score_core, hne, hb, hreq, hf]
    intro a ha
    simp [entry_field_match]
  · simp [education_score_core, hne, hb, hreq, hf]

/-- C7 amended witness: one bachelor-degree entry, job not requiring a
degree and giving no field hints. -/
theorem C7_amended_no_degree_required_witness :
    (education_score_core [{ degree := "bs", field := "math" }]
        { level := "unknown", degree_required := false, fields := [] }).2
      = true ∧
    (education_score_core [{ degree := "bs", field := "math" }]
        { level := "unknown", degree_required := false, fields := [] }).1
      = 80 + 10 * (([{ degree := "bs", field := "math" }].filter
          (entry_field_match [])).length : ℚ) :=
  C7_amended_no_degree_required _ _ (by simp) rfl

/-- C8: for every skill category with job-required skills, the exact-match
list and the missing list computed by `_advanced_skills_matching`
partition the job-required set: membership in one of the two is
equivalent to membership in the job set, no skill is in both, and a fuzzy
match never leaves the missing set. -/
theorem C8_exact_and_missing_partition (sim : String → String → ℚ)
    (synonyms : List (String × List String))
    (resume_skills job_skills : List String)
    (hne : job_skills ≠ []) (s : String) :
    ((s ∈ exact_matches synonyms resume_skills job_skills ∨
        s ∈ missing_skills synonyms resume_skills job_skills)
      ↔ s ∈ job_skills) ∧
    ¬(s ∈ exact_matches synonyms resume_skills job_skills ∧
        s ∈ missing_skills synonyms resume_skills job_skills) ∧
    (s ∈ fuzzy_matches sim synonyms resume_skills job_skills →
        s ∈ missing_skills synonyms resume_skills job_skills) := by
  simp only [exact_matches, missing_skills, fuzzy_matches, List.mem_filter,
    Bool.not_eq_true', Bool.and_eq_true]
  refine ⟨?_, ?_, ?_⟩
  · constructor
    · rintro (⟨hj, _⟩ | ⟨hj, _⟩) <;> exact hj
    · intro hj
      by_cases he : is_exact_skill_match synonyms resume_skills s
      · exact Or.inl ⟨hj, he⟩
      · exact Or.inr ⟨hj, by simpa using he⟩
  · rintro ⟨⟨_, he⟩, ⟨_, hm⟩⟩
    rw [he] at hm
    cases hm
  · rintro ⟨hj, hne2, _⟩
    exact ⟨hj, by simpa using hne2⟩

/-- C8 witness: the partition at a single job skill, empty résumé skill
set, no synonyms, zero similarity. -/
theorem C8_exact_and_missing_partition_witness :
    (("python" ∈ exact_matches [] [] ["python"] ∨
        "python" ∈ missing_skills [] [] ["python"])
      ↔ "python" ∈ ["python"]) ∧
    ¬("python" ∈ exact_matches [] [] ["python"] ∧
        "python" ∈ missing_skills [] [] ["python"]) ∧
    ("python" ∈ fuzzy_matches (fun _ _ => 0) [] [] ["python"] →
        "python" ∈ missing_skills [] [] ["python"]) :=
  C8_exact_and_missing_partition (fun _ _ => 0) [] [] ["python"]
    (by simp) "python"

/-- C9: a run is created `pending`; one execution of the lifecycle
controller first sets `processing` and then exactly one terminal state —
`completed` exactly when the scoring pipeline returned a result, `failed`
with the exception message recorded when it raised — and the resulting
transition list never revisits `pending` or `processing`. -/
theorem C9_lifecycle_state_machine (outcome : Except String ℚ) :
    newAnalysis.status = AnalysisStatus.pending ∧
    ∃ final : AnalysisState,
      analyze_resume_job_match newAnalysis outcome
        = [{ newAnalysis with status := AnalysisStatus.processing }, final] ∧
      (final.status = AnalysisStatus.completed ∨
        final.status = AnalysisStatus.failed) ∧
      (final.status = AnalysisStatus.completed ↔ ∃ q, outcome = Except.ok q) ∧
      (∀ e, outcome = Except.error e →
        final.status = AnalysisStatus.failed ∧
        final.error_message = some e) := by
  refine ⟨rfl, ?_⟩
  cases outcome with
  | ok q =>
      refine ⟨_, rfl, Or.inl rfl, ?_, ?_⟩
      · exact ⟨fun _ => ⟨q, rfl⟩, fun _ => rfl⟩
      · intro e he; cases he
  | error e =>
      refine ⟨_, rfl, Or.inr rfl, ?_, ?_⟩
      · constructor
        · intro h; cases h
        · rintro ⟨q, hq⟩; cases hq
      · rintro e2 he2
        cases he2
        exact ⟨rfl, rfl⟩

/-- C10: when the job analyzer extracted no keywords, the keyword
component short-circuits to the neutral score 50 without evaluating the
coverage/density formula. -/
theorem C10_empty_keywords_neutral_fifty (dens : String → ℕ × ℚ) :
    advanced_keyword_overall dens [] = 50 := by
  simp [advanced_keyword_overall]

end ATSMatch
